import Mathlib

/-!
Verification of the optoma-web-api projector client.

This file gives a shallow embedding of `optoma_web_api/__init__.py`:
the static value-mapping tables, the status-blob grammar parser, the
status translation pipeline, the set-value resolution used by the valued
setter commands, the login protocol (including the MD5 challenge
response), and the retry orchestration around control requests.
Theorems at the end settle the specification claims against these
definitions.
-/

namespace Optoma

/-! ## Python-model utilities

Association lists model Python dictionaries: `alookup` is `d[k]` /
`d.get(k)`, `pyDictInsert` is `d[k] = v` (update in place, preserving
the original insertion position, else append), and `pyDict` builds a
dict from a sequence of key/value pairs the way a dict comprehension
does. -/

/-- Lookup in an association list (Python `d.get(k)`). -/
def alookup {α : Type} (l : List (String × α)) (k : String) : Option α :=
  match l with
  | [] => none
  | (k', v) :: rest => if k' = k then some v else alookup rest k

/-- Python dict assignment `d[k] = v`: overwrite in place if the key is
present (keeping its position), otherwise append. -/
def pyDictInsert {α : Type} (d : List (String × α)) (k : String) (v : α) :
    List (String × α) :=
  if d.any (fun kv => kv.1 = k) then
    d.map (fun kv => if kv.1 = k then (k, v) else kv)
  else
    d ++ [(k, v)]

/-- Build a Python dict from a list of pairs, later pairs overwriting
earlier ones (the semantics of `{k: v for k, v in pairs}`). -/
def pyDict {α : Type} (l : List (String × α)) : List (String × α) :=
  l.foldl (fun d kv => pyDictInsert d kv.1 kv.2) []

/-- The Python exceptions and error conditions the client can produce. -/
inductive PyError : Type where
  | keyError (k : String)
  | valueError (s : String)
  | notImplementedError (s : String)
  | notLoggedIn
  | connectionError
  | httpError (code : Nat)
  | loginPageFailure
  | loginFailure (msg : String)
  | otherError (s : String)
deriving DecidableEq, Repr

/-! ## Value Mapping Registry

`STATUS_VALUE_MAP` entries are either a literal code→label dictionary or
the `int` coercion; this is the tagged union behind the source's
duck-typed "dict or class" values. -/

/-- A per-field value descriptor: an enumerated code→label map, or the
`int` type-coercion. -/
inductive ValueMapping : Type where
  | enum (m : List (String × String))
  | intCoerce
deriving DecidableEq, Repr

/-- Value returned for stubbed-out entries (`VALUE_NOT_AVAILABLE`). -/
def VALUE_NOT_AVAILABLE : String := "N/A"

/-- The map of status returns to human-usable values
(`STATUS_VALUE_MAP` in the source). -/
def STATUS_VALUE_MAP : List (String × ValueMapping) := [
  ("Power Status", .enum [
    ("0", "Off"),
    ("1", "On")]),
  ("Source", .enum [
    ("0", "HDMI 1"),
    ("1", "HDMI 2/MHL"),
    ("2", "VGA")]),
  ("Display Mode", .enum [
    ("0", "Presentation"),
    ("1", "Bright"),
    ("2", "Unknown 3D Mode 1"),
    ("3", "Unknown 3D Mode 2"),
    ("4", "HDR SIM."),
    ("5", "Cinema"),
    ("6", "Game"),
    ("7", "sRGB"),
    ("8", "DICOM SIM"),
    ("9", "HDR2"),
    ("255", VALUE_NOT_AVAILABLE)]),
  ("Brightness", .intCoerce),
  ("Contrast", .intCoerce),
  ("Sharpness", .intCoerce),
  ("Projection", .enum [
    ("0", "Front"),
    ("1", "Ceiling-top"),
    ("2", "Rear"),
    ("3", "Rear-top")]),
  ("Brightness Mode", .enum [
    ("0", VALUE_NOT_AVAILABLE),
    ("4", "DynamicBlack 1"),
    ("5", "DynamicBlack 2"),
    ("6", "DynamicBlack 3"),
    ("7", "Power 100%"),
    ("8", "Power 95%"),
    ("9", "Power 90%"),
    ("10", "Power 85%"),
    ("11", "Power 80%"),
    ("12", "Power 75%"),
    ("13", "Power 70%"),
    ("14", "Power 65%"),
    ("15", "Power 60%"),
    ("16", "Power 55%"),
    ("17", "Power 50%")]),
  ("AV Mute", .enum [
    ("0", "Off"),
    ("1", "On")]),
  ("Power Mode", .enum [
    ("0", "Active"),
    ("1", "Eco.")]),
  ("Freeze", .enum [
    ("0", "Off"),
    ("1", "On")]),
  ("Logo", .enum [
    ("0", "Default"),
    ("2", "Neutral")]),
  ("Color Space", .enum [
    ("0", "Auto"),
    ("1", "RGB"),
    ("2", "RGB(0-255)"),
    ("3", "RGB(16-235)"),
    ("4", "YUV")]),
  ("Zoom", .intCoerce),
  ("Auto Power Off", .intCoerce),
  ("Background Color", .enum [
    ("0", "None"),
    ("1", "Blue"),
    ("2", "Red"),
    ("3", "Green"),
    ("4", "Gray")]),
  ("Wall Color", .enum [
    ("0", "Off"),
    ("1", "BlackBoard"),
    ("2", "Light Yellow"),
    ("3", "Light Green"),
    ("4", "Light Blue"),
    ("5", "Pink"),
    ("6", "Gray")]),
  ("Always On", .enum [
    ("0", "Off"),
    ("1", "On")]),
  ("Phase", .intCoerce),
  ("BrilliantColor", .intCoerce),
  ("Gamma", .enum [
    ("0", "Film"),
    ("1", "Video"),
    ("2", "Graphics"),
    ("3", "Standard(2.2)"),
    ("4", "1.8"),
    ("5", "2.0"),
    ("6", "2.4"),
    ("7", "3D"),
    ("8", "2.6"),
    ("9", "HDR"),
    ("10", "HLG"),
    ("11", "Blackboard"),
    ("12", "DICOM SIM"),
    ("255", VALUE_NOT_AVAILABLE)]),
  ("Color Temperature", .enum [
    ("0", "Warm"),
    ("1", "Standard"),
    ("2", "Cool"),
    ("3", "Cold")]),
  ("Sleep", .intCoerce),
  ("Aspect Ratio", .enum [
    ("0", "4:3"),
    ("1", "16:9"),
    ("3", "LBX"),
    ("4", "Native"),
    ("5", "Auto"),
    ("6", "SuperWide"),
    ("255", VALUE_NOT_AVAILABLE)]),
  ("Horizontal Image Shift", .intCoerce),
  ("Vertical Image Shift", .intCoerce),
  ("High Altitude", .enum [
    ("0", "Off"),
    ("1", "On")]),
  ("Direct Power On", .enum [
    ("0", "Off"),
    ("1", "On")]),
  ("Projector ID", .intCoerce),
  ("Information Hide", .enum [
    ("0", "Off"),
    ("1", "On")]),
  ("Display Mode Lock", .enum [
    ("0", "Off"),
    ("1", "On")]),
  ("Keypad Lock", .enum [
    ("0", "Off"),
    ("1", "On")])]

/-- Back-mapping of values to codes (`STATUS_VALUE_TO_CODE_MAP` in the
source): for every field whose descriptor is a mapping, the dict
comprehension `{sv: sk for sk, sv in m.items()}`. -/
def STATUS_VALUE_TO_CODE_MAP : List (String × List (String × String)) :=
  STATUS_VALUE_MAP.filterMap (fun kv =>
    match kv.2 with
    | .enum m => some (kv.1, pyDict (m.map (fun p => (p.2, p.1))))
    | .intCoerce => none)

/-- `STATUS_TO_NAME_MAP` in the source: wire code → optional human field
name (`none` models Python `None`, the reserved/unmapped codes). -/
def STATUS_TO_NAME_MAP : List (String × Option String) := [
  ("pw", some "Power Status"),
  ("a", some "Source"),
  ("b", some "Display Mode"),
  ("c", some "Brightness"),
  ("d", some "Contrast"),
  ("f", some "Sharpness"),
  ("t", some "Projection"),
  ("h", some "Brightness Mode"),
  ("j", none),
  ("k", some "AV Mute"),
  ("l", some "Power Mode"),
  ("m", none),
  ("n", some "Freeze"),
  ("o", some "Logo"),
  ("p", none),
  ("q", some "Color Space"),
  ("r", some "Zoom"),
  ("u", some "Auto Power Off"),
  ("v", none),
  ("w", none),
  ("x", some "Background Color"),
  ("y", some "Wall Color"),
  ("z", some "Always On"),
  ("A", some "Phase"),
  ("B", some "BrilliantColor"),
  ("C", some "Gamma"),
  ("D", some "Color Temperature"),
  ("E", none),
  ("H", some "Sleep"),
  ("I", none),
  ("K", none),
  ("L", some "Aspect Ratio"),
  ("M", some "Horizontal Image Shift"),
  ("N", some "Vertical Image Shift"),
  ("O", some "High Altitude"),
  ("P", some "Direct Power On"),
  ("Q", some "Projector ID"),
  ("R", none),
  ("S", none),
  ("T", none),
  ("V", some "Information Hide"),
  ("W", some "Display Mode Lock"),
  ("Y", some "Keypad Lock"),
  ("e", none),
  ("g", none),
  ("Z", none)]

/-! ## Status Grammar Parser

Embedding of `status_grammer.parse_string(...)` from the source:

    Char("{").suppress()
    + OneOrMore(Group(Word(alphas) + Char(":").suppress() + QuotedString(DQ))
                + Optional(",").suppress())
    + Char("}").suppress()

pyparsing semantics modelled: `parse_string` first applies
`str.expandtabs()` to its input (the source never sets `keepTabs`);
every token then skips the default whitespace characters (space,
newline, tab, carriage return); `Word(alphas)` is one or more
contiguous ASCII letters; `QuotedString` with no escape character and
`multiline=False` is a double quote, then any characters other than a
double quote, `\n` or `\r`, then a closing double quote, the result
being the unquoted content; `OneOrMore` repeats its body until the body
fails, backtracking to the start of the failed iteration; and
`parse_string` is called with its default `parse_all=False`, so input
after the closing brace is ignored.  A failed parse raises a
`ParseException` whose `pstr` attribute is the input being parsed. -/

/-- Default pyparsing whitespace characters (space, newline, tab,
carriage return). -/
def wsChar (c : Char) : Bool :=
  c = ' ' || c = '\n' || c = '\t' || c = '\r'

/-- Skip leading whitespace, as each pyparsing token does. -/
def skipWs (cs : List Char) : List Char := cs.dropWhile wsChar

/-- The characters of `pp.alphas` (the ASCII letters). -/
def ppAlphas : List Char :=
  "abcdefghijklmnopqrstuvwxyzABCDEFGHIJKLMNOPQRSTUVWXYZ".data

/-- Membership of `pp.alphas` (ASCII letters). -/
def isAsciiAlpha (c : Char) : Bool := decide (c ∈ ppAlphas)

/-- Characters allowed inside `QuotedString(DQ)` content: anything but
the quote character and (since `multiline=False`) newline characters. -/
def qsOk (c : Char) : Bool := !(c = '"' || c = '\n' || c = '\r')

/-- `Word(alphas)`: one or more contiguous ASCII letters. -/
def parseWord (cs : List Char) : Option (List Char × List Char) :=
  match cs.takeWhile isAsciiAlpha with
  | [] => none
  | w => some (w, cs.dropWhile isAsciiAlpha)

/-- `QuotedString(DQ)`: a double-quoted literal, returned unquoted. -/
def parseQuoted (cs : List Char) : Option (List Char × List Char) :=
  match cs with
  | '"' :: rest =>
    match rest.dropWhile qsOk with
    | '"' :: rest2 => some (rest.takeWhile qsOk, rest2)
    | _ => none
  | _ => none

/-- `Char(c)`: match exactly the character `c` at the current
position. -/
def expectChar (c : Char) (cs : List Char) : Option (List Char) :=
  match cs with
  | c' :: rest => if c' = c then some rest else none
  | [] => none

/-- One body iteration of the `OneOrMore`:
`Group(Word(alphas) + Char(":") + QuotedString(DQ)) + Optional(",")`. -/
def parseGroup (cs : List Char) : Option ((String × String) × List Char) :=
  match parseWord (skipWs cs) with
  | none => none
  | some (w, cs1) =>
    match expectChar ':' (skipWs cs1) with
    | none => none
    | some cs2 =>
      match parseQuoted (skipWs cs2) with
      | none => none
      | some (v, cs3) =>
        match expectChar ',' (skipWs cs3) with
        | some cs4 => some ((String.mk w, String.mk v), cs4)
        | none => some ((String.mk w, String.mk v), cs3)

/-- The `OneOrMore` repetition: at least one group must match; the
repetition stops (without consuming) at the first failing iteration.
The fuel argument bounds the number of iterations; callers pass more
fuel than there are input characters, and every successful group
consumes at least one character, so the fuel never runs out. -/
def parseGroups : Nat → List Char → Option (List (String × String) × List Char)
  | 0, _ => none
  | fuel + 1, cs =>
    match parseGroup cs with
    | none => none
    | some (p, rest) =>
      match parseGroups fuel rest with
      | none => some ([p], rest)
      | some (ps, rest2) => some (p :: ps, rest2)

/-- `status_grammer.parse_string(s)` (with `parse_all=False`): leading
whitespace, `{`, one or more groups, `}`; input after the closing brace
is ignored.  Returns the matched pairs in input order, or `none` for a
`ParseException`. -/
def statusGrammarParse (cs : List Char) : Option (List (String × String)) :=
  match expectChar '\x7b' (skipWs cs) with
  | none => none
  | some cs1 =>
    match parseGroups (cs1.length + 1) cs1 with
    | none => none
    | some (ps, cs2) =>
      match expectChar '\x7d' (skipWs cs2) with
      | some _ => some ps
      | none => none

/-- A pyparsing `ParseException`; `pstr` is the input being parsed. -/
structure ParseErr : Type where
  pstr : String
deriving DecidableEq, Repr

/-- One step of Python `str.expandtabs()` with the default tab size 8:
`col` is the current column; a tab becomes spaces up to the next
multiple of 8, and the column resets to zero after a newline or
carriage return. -/
def pyExpandtabsAux : Nat → List Char → List Char
  | _, [] => []
  | col, c :: rest =>
    if c = '\t' then
      List.replicate (8 - col % 8) ' ' ++
        pyExpandtabsAux (col + (8 - col % 8)) rest
    else if c = '\n' || c = '\r' then
      c :: pyExpandtabsAux 0 rest
    else
      c :: pyExpandtabsAux (col + 1) rest

/-- Python `str.expandtabs()`, which `parse_string` applies to its
input implicitly (the source never sets `keepTabs`). -/
def pyExpandtabs (cs : List Char) : List Char := pyExpandtabsAux 0 cs

/-- `_parse_status_response` in the source: `parse_string` first
tab-expands the input (`keepTabs` is never set), then matches the
grammar and the `{k: v for k, v in parsed_response}` dict is built; on
a parse failure the `ParseException` — whose `pstr` is the
(tab-expanded) input being parsed — is re-raised. -/
def parse_status_response (s : String) :
    Except ParseErr (List (String × String)) :=
  match statusGrammarParse (pyExpandtabs s.data) with
  | some ps => .ok (pyDict ps)
  | none => .error ⟨String.mk (pyExpandtabs s.data)⟩

/-! ## Status translation (`Projector.status`)

The source first maps wire codes to human names with the comprehension

    {STATUS_TO_NAME_MAP[k]: v for k, v in result.items()
     if STATUS_TO_NAME_MAP[k] is not None}

(note `STATUS_TO_NAME_MAP[k]` raises `KeyError` for a code absent from
the table), then translates each value through `STATUS_VALUE_MAP`. -/

/-- The translated value of one status field: a label string or a
coerced integer. -/
inductive TransValue : Type where
  | str (s : String)
  | int (n : Int)
deriving DecidableEq, Repr

/-- Python `int(s)` on a string: optional surrounding whitespace, an
optional sign, then one or more decimal digits; anything else raises
`ValueError`. -/
def pythonInt (s : String) : Except PyError Int :=
  let cs := (((s.data.dropWhile wsChar).reverse).dropWhile wsChar).reverse
  let core : List Char → Except PyError Int := fun ds =>
    if ds ≠ [] && ds.all (fun c => c.isDigit) then
      .ok (Int.ofNat (ds.foldl (fun a c => a * 10 + (c.toNat - '0'.toNat)) 0))
    else
      .error (.valueError s)
  match cs with
  | '-' :: ds => (core ds).map (fun n => -n)
  | '+' :: ds => core ds
  | ds => core ds

/-- One step of the name-mapping dict comprehension in
`Projector.status`: evaluating `STATUS_TO_NAME_MAP[k]` raises
`KeyError` for a code absent from the table; a code mapped to `None`
fails the `is not None` guard and is skipped; otherwise the entry is
added under its human name. -/
def nameStep (acc : List (String × String)) (kv : String × String) :
    Except PyError (List (String × String)) :=
  match alookup STATUS_TO_NAME_MAP kv.1 with
  | none => .error (.keyError kv.1)
  | some none => .ok acc
  | some (some n) => .ok (pyDictInsert acc n kv.2)

/-- The wire-code → human-name stage of `Projector.status`: the dict
comprehension over the parsed pairs. -/
def translate_names (result : List (String × String)) :
    Except PyError (List (String × String)) :=
  result.foldlM nameStep []

/-- The per-field value translation in the body of `Projector.status`:
an enumerated mapping uses `value_mapping.get(value, value)` (raw value
passed through, with a logged diagnostic, when unrecognized); the `int`
coercion applies `int(value)`; a name with no entry in
`STATUS_VALUE_MAP` falls to the final `else` branch and raises
`NotImplementedError`. -/
def translate_value (name : String) (value : String) :
    Except PyError TransValue :=
  match alookup STATUS_VALUE_MAP name with
  | some (.enum m) => .ok (.str ((alookup m value).getD value))
  | some .intCoerce => (pythonInt value).map .int
  | none => .error (.notImplementedError "Unhandled type - not mapping or function!")

/-- The value-translation loop of `Projector.status`, building
`result_status` over the name-mapped entries. -/
def translate_values (status : List (String × String)) :
    Except PyError (List (String × TransValue)) :=
  status.foldlM (fun acc kv =>
    (translate_value kv.1 kv.2).map (fun tv => pyDictInsert acc kv.1 tv)) []

/-- The whole translation performed by `Projector.status` on a parsed
status dict. -/
def status_translate (parsed : List (String × String)) :
    Except PyError (List (String × TransValue)) :=
  match translate_names parsed with
  | .error e => .error e
  | .ok names => translate_values names

/-! ## Valued setter commands and the power special case -/

/-- The Python `typing.Union[int, str]` argument of a setter. -/
inductive CmdValue : Type where
  | int (n : Int)
  | str (s : String)
deriving DecidableEq, Repr

/-- What the expression
`str(value) if isinstance(value, int) else STATUS_VALUE_TO_CODE_MAP[value]`
can evaluate to: a string, or (since the subscript indexes the outer
field-name-keyed dict) a whole inner label→code dict. -/
inductive SetValue : Type where
  | pstr (s : String)
  | pdict (m : List (String × String))
deriving DecidableEq, Repr

/-- The `set_value` computation shared by every valued setter in the
source: an integer is stringified with `str`; a string subscripts
`STATUS_VALUE_TO_CODE_MAP` directly (raising `KeyError` when absent
from its field-name keys). -/
def resolve_set_value (value : CmdValue) : Except PyError SetValue :=
  match value with
  | .int n => .ok (.pstr (toString n))
  | .str s =>
    match alookup STATUS_VALUE_TO_CODE_MAP s with
    | some m => .ok (.pdict m)
    | none => .error (.keyError s)

/-- The valued setter methods of `Projector` (method name, control
wire-parameter name): each resolves `set_value` and posts
`{wireParam: set_value}`. -/
def VALUED_SETTER_PARAMS : List (String × String) := [
  ("source", "source"),
  ("gamma", "Degamma"),
  ("color_temperature", "colortmp"),
  ("display_mode", "dismode"),
  ("color_space", "colorsp"),
  ("aspect_ratio", "aspect1"),
  ("projection", "projection"),
  ("background_color", "background"),
  ("wall_color", "wall"),
  ("logo", "logo"),
  ("power_mode", "pwmode"),
  ("brightness_mode", "lampmd")]

/-- A generic valued setter: resolve the value, then build the single
`{wireParam: set_value}` form body handed to `control`. -/
def valued_setter (wireParam : String) (value : CmdValue) :
    Except PyError (List (String × SetValue)) :=
  (resolve_set_value value).map (fun sv => [(wireParam, sv)])

/-- Form body posted by `Projector.power_on`. -/
def power_on_request : List (String × String) := [("btn_powon", "Power On")]

/-- Form body posted by `Projector.power_off`. -/
def power_off_request : List (String × String) := [("btn_powoff", "Power Off")]

/-- `Projector.power_status`: resolve `set_value` as the other setters
do, then compare it with the string `"1"` (a dict compares unequal) and
dispatch to `power_on` or `power_off`; no generic value-set request
exists for power. -/
def power_status (value : CmdValue) :
    Except PyError (List (String × String)) :=
  match resolve_set_value value with
  | .error e => .error e
  | .ok sv => if sv = .pstr "1" then .ok power_on_request else .ok power_off_request

/-! ## MD5 (RFC 1321), used by the login challenge response

`_login` computes
`hashlib.md5(f"{username}{password}{challenge}".encode("utf8")).hexdigest()`.
The digest is modelled over byte lists with 32-bit words as naturals
reduced modulo `2^32`. -/

/-- `2^32`, the word modulus. -/
def M32 : Nat := 4294967296

/-- 32-bit addition. -/
def add32 (a b : Nat) : Nat := (a + b) % M32

/-- 32-bit bitwise complement. -/
def not32 (x : Nat) : Nat := Nat.xor x 4294967295

/-- 32-bit left rotation. -/
def rotl32 (x n : Nat) : Nat := ((x <<< n) % M32) ||| (x >>> (32 - n))

/-- The MD5 sine-derived round constants `K[0..63]`. -/
def md5K : List Nat := [
  3614090360, 3905402710, 606105819, 3250441966,
  4118548399, 1200080426, 2821735955, 4249261313,
  1770035416, 2336552879, 4294925233, 2304563134,
  1804603682, 4254626195, 2792965006, 1236535329,
  4129170786, 3225465664, 643717713, 3921069994,
  3593408605, 38016083, 3634488961, 3889429448,
  568446438, 3275163606, 4107603335, 1163531501,
  2850285829, 4243563512, 1735328473, 2368359562,
  4294588738, 2272392833, 1839030562, 4259657740,
  2763975236, 1272893353, 4139469664, 3200236656,
  681279174, 3936430074, 3572445317, 76029189,
  3654602809, 3873151461, 530742520, 3299628645,
  4096336452, 1126891415, 2878612391, 4237533241,
  1700485571, 2399980690, 4293915773, 2240044497,
  1873313359, 4264355552, 2734768916, 1309151649,
  4149444226, 3174756917, 718787259, 3951481745]

/-- The MD5 per-round left-rotation amounts `s[0..63]`. -/
def md5S : List Nat := [
  7, 12, 17, 22, 7, 12, 17, 22, 7, 12, 17, 22, 7, 12, 17, 22,
  5, 9, 14, 20, 5, 9, 14, 20, 5, 9, 14, 20, 5, 9, 14, 20,
  4, 11, 16, 23, 4, 11, 16, 23, 4, 11, 16, 23, 4, 11, 16, 23,
  6, 10, 15, 21, 6, 10, 15, 21, 6, 10, 15, 21, 6, 10, 15, 21]

/-- The four-word MD5 state. -/
structure MD5State : Type where
  a : Nat
  b : Nat
  c : Nat
  d : Nat
deriving DecidableEq, Repr

/-- One of the 64 MD5 rounds; `m j` is the `j`-th little-endian message
word of the current chunk. -/
def md5Round (m : Nat → Nat) (st : MD5State) (i : Nat) : MD5State :=
  let f :=
    if i < 16 then (st.b &&& st.c) ||| (not32 st.b &&& st.d)
    else if i < 32 then (st.d &&& st.b) ||| (not32 st.d &&& st.c)
    else if i < 48 then Nat.xor st.b (Nat.xor st.c st.d)
    else Nat.xor st.c (st.b ||| not32 st.d)
  let g :=
    if i < 16 then i
    else if i < 32 then (5 * i + 1) % 16
    else if i < 48 then (3 * i + 5) % 16
    else (7 * i) % 16
  let rotated := rotl32 (add32 (add32 (add32 st.a f) (md5K.getD i 0)) (m g)) (md5S.getD i 0)
  ⟨st.d, add32 st.b rotated, st.b, st.c⟩

/-- The `j`-th little-endian 32-bit word of a byte chunk. -/
def leWord (chunk : List Nat) (j : Nat) : Nat :=
  chunk.getD (4 * j) 0 + (chunk.getD (4 * j + 1) 0) <<< 8 +
  (chunk.getD (4 * j + 2) 0) <<< 16 + (chunk.getD (4 * j + 3) 0) <<< 24

/-- Process one padded 64-byte chunk. -/
def md5Chunk (st : MD5State) (chunk : List Nat) : MD5State :=
  let r := (List.range 64).foldl (md5Round (leWord chunk)) st
  ⟨add32 st.a r.a, add32 st.b r.b, add32 st.c r.c, add32 st.d r.d⟩

/-- MD5 padding: `0x80`, zeros to 56 mod 64, then the 64-bit
little-endian bit length. -/
def md5Pad (msg : List Nat) : List Nat :=
  let len := msg.length
  let zeros := (119 - (len % 64)) % 64
  let bitLen := (len * 8) % (2 ^ 64)
  msg ++ [128] ++ List.replicate zeros 0 ++
    (List.range 8).map (fun k => (bitLen >>> (8 * k)) % 256)

/-- Split a byte list into 64-byte chunks; the fuel bounds the number
of chunks and is never exhausted when it is at least the list length. -/
def chunks64Fuel : Nat → List Nat → List (List Nat)
  | 0, _ => []
  | _, [] => []
  | fuel + 1, bs => bs.take 64 :: chunks64Fuel fuel (bs.drop 64)

/-- Split a byte list into 64-byte chunks. -/
def chunks64 (bs : List Nat) : List (List Nat) := chunks64Fuel bs.length bs

/-- Lower-case hex digit. -/
def hexDigit (n : Nat) : Char :=
  if n < 10 then Char.ofNat (48 + n) else Char.ofNat (97 + (n - 10))

/-- Two lower-case hex digits of a byte. -/
def byteHex (b : Nat) : List Char := [hexDigit (b / 16), hexDigit (b % 16)]

/-- The four little-endian bytes of a 32-bit word. -/
def wordLEBytes (w : Nat) : List Nat :=
  [w % 256, (w >>> 8) % 256, (w >>> 16) % 256, (w >>> 24) % 256]

/-- MD5 digest of a byte list, as the lower-case hex string
`hexdigest()` returns. -/
def md5_hex (msg : List Nat) : String :=
  let st := (chunks64 (md5Pad msg)).foldl md5Chunk
    ⟨1732584193, 4023233417, 2562383102, 271733878⟩
  String.mk (((wordLEBytes st.a ++ wordLEBytes st.b ++ wordLEBytes st.c ++
    wordLEBytes st.d).map byteHex).flatten)

/-- UTF-8 encoding of one character. -/
def utf8Char (c : Char) : List Nat :=
  let n := c.toNat
  if n < 128 then [n]
  else if n < 2048 then [192 + n / 64, 128 + n % 64]
  else if n < 65536 then [224 + n / 4096, 128 + (n / 64) % 64, 128 + n % 64]
  else [240 + n / 262144, 128 + (n / 4096) % 64, 128 + (n / 64) % 64, 128 + n % 64]

/-- Python `s.encode("utf8")` as a byte list. -/
def utf8_bytes (s : String) : List Nat := (s.data.map utf8Char).flatten

/-! ## The login protocol (`Projector._login`) -/

/-- The form body `_login` posts to `/tgi/login.tgi`: the fixed literal
fields and the challenge response
`md5(f"{username}{password}{challenge}".encode("utf8")).hexdigest()`. -/
def login_request (username password challenge : String) :
    List (String × String) := [
  ("user", "0"),
  ("Username", "1"),
  ("Password", ""),
  ("Challenge", ""),
  ("Response", md5_hex (utf8_bytes (username ++ password ++ challenge)))]

/-- The response to the credential submission. -/
structure SubmitResp : Type where
  status : Nat
  cookies : List String
deriving DecidableEq, Repr

/-- The environment a login attempt runs against: the outcome of
`GET /login.htm` (a transport error, or a page whose hidden `Challenge`
input value is the `Option String`), and the outcome of
`POST /tgi/login.tgi`. -/
structure LoginWorld : Type where
  page : Except PyError (Option String)
  submit : Except PyError SubmitResp
deriving Repr

/-- `Projector._login`, returning the call's outcome together with the
new `_logged_in` flag: any failure fetching the page or extracting the
`Challenge` input value raises `LoginPageFailure`; a transport error or
non-success HTTP status (4xx/5xx, per `raise_for_status`) on the
submission raises `LoginFailure`; a submission response without an
`ATOP` cookie raises `LoginFailure`; otherwise `_logged_in` becomes
`True`.  Failures leave the flag unchanged. -/
def login (username password : String) (w : LoginWorld) (logged_in : Bool) :
    Except PyError Unit × Bool :=
  match w.page with
  | .error _ => (.error .loginPageFailure, logged_in)
  | .ok none => (.error .loginPageFailure, logged_in)
  | .ok (some challenge) =>
    let _req := login_request username password challenge
    match w.submit with
    | .error _ => (.error (.loginFailure "HTTP error while sending login response"), logged_in)
    | .ok resp =>
      if 400 ≤ resp.status then
        (.error (.loginFailure "HTTP error while sending login response"), logged_in)
      else if resp.cookies.contains "ATOP" then
        (.ok (), true)
      else
        (.error (.loginFailure "No authorization cookie in admin response"), logged_in)

/-! ## Retry orchestration (`Projector.control` / `Projector.info`)

`retrying.retry(retry_on_exception=self._control_retry, wait_fixed=...,
stop_max_attempt_number=limit)`: each attempt's exception is passed to
`_control_retry`; `NotLoggedIn` sets `_logged_in = False`, performs
`_login()` (whose own failure propagates) and retries;
`ConnectionError` retries; anything else is re-raised immediately.  A
retryable failure on attempt `n` stops — re-raising that failure
unchanged — when `n` has reached the attempt limit, so at most
`limit - 1` re-attempts happen after the first.

The run is instrumented with a trace of the observable session events:
attempt starts, login-marker observations (`NotLoggedIn` raised by
`_check_response_for_login_scheme`), the `_logged_in = False`
assignment, and login invocations recording the flag value they start
from. -/

/-- Observable session events. -/
inductive Ev : Type where
  | attemptStart (n : Nat)
  | markerObserved
  | flagCleared
  | loginStart (flag : Bool)
  | loginDone
deriving DecidableEq, Repr

/-- Outcome of a retry-wrapped operation: the final `_logged_in` flag,
the returned value or re-raised exception, and the event trace. -/
structure CtlResult (α : Type) : Type where
  state : Bool
  result : Except PyError α
  trace : List Ev
deriving Repr

/-- The retry loop of `retrying` specialised to `_control_retry`:
`remaining` is the number of re-attempts still allowed (the stop
condition `attempt_number >= stop_max_attempt_number` re-raises the
last failure once it is exhausted), `n` is the attempt number, `li`
indexes the login environments, and `st` is `_logged_in`.  `attempts n`
is the outcome of the `n`-th execution of the wrapped request:
`NotLoggedIn` models a response bearing the login-page marker. -/
def runCtlAux {α : Type} (u p : String) (attempts : Nat → Except PyError α)
    (logins : Nat → LoginWorld) :
    Nat → Nat → Nat → Bool → CtlResult α
  | remaining, n, li, st =>
    match attempts n with
    | .ok a => ⟨st, .ok a, [.attemptStart n]⟩
    | .error .notLoggedIn =>
      let (lres, st2) := login u p (logins li) false
      let evs := [Ev.attemptStart n, Ev.markerObserved, Ev.flagCleared,
                  Ev.loginStart false]
      match lres with
      | .error le => ⟨st2, .error le, evs⟩
      | .ok _ =>
        match remaining with
        | 0 => ⟨st2, .error .notLoggedIn, evs ++ [Ev.loginDone]⟩
        | r + 1 =>
          let rest := runCtlAux u p attempts logins r (n + 1) (li + 1) st2
          ⟨rest.state, rest.result, evs ++ [Ev.loginDone] ++ rest.trace⟩
    | .error .connectionError =>
      match remaining with
      | 0 => ⟨st, .error .connectionError, [.attemptStart n]⟩
      | r + 1 =>
        let rest := runCtlAux u p attempts logins r (n + 1) li st
        ⟨rest.state, rest.result, [Ev.attemptStart n] ++ rest.trace⟩
    | .error e => ⟨st, .error e, [.attemptStart n]⟩

/-- A retry-wrapped control/info execution with attempt limit `limit`
(the `retry_limit_count` of the client), starting from `_logged_in`
state `st`. -/
def control_with_retry {α : Type} (u p : String)
    (attempts : Nat → Except PyError α) (logins : Nat → LoginWorld)
    (limit : Nat) (st : Bool) : CtlResult α :=
  runCtlAux u p attempts logins (limit - 1) 1 1 st

/-- Number of attempts started in a trace. -/
def nAttempts (tr : List Ev) : Nat :=
  tr.countP (fun ev => match ev with | .attemptStart _ => true | _ => false)

/-- Number of login invocations in a trace. -/
def nLogins (tr : List Ev) : Nat :=
  tr.countP (fun ev => match ev with | .loginStart _ => true | _ => false)

/-! ## `Projector.mac_address` and the unwrapped `_info` path

`mac_address` calls `self._info()` directly — not the retry-wrapped
`info()` — so a login-marker response there raises `NotLoggedIn`
without any `_logged_in = False` assignment. -/

/-- The `GET /Info.htm` response: whether it bears the
`<frame src="/login.htm">` marker, and the info table parsed from it
otherwise. -/
structure InfoPage : Type where
  marker : Bool
  table : List (String × String)
deriving Repr

/-- `Projector._info`: fetch `Info.htm`, raise transport/HTTP errors,
raise `NotLoggedIn` on the login-page marker, else return the parsed
two-column table.  The `_logged_in` flag is never touched. -/
def info_raw (resp : Except PyError InfoPage) :
    Except PyError (List (String × String)) :=
  match resp with
  | .error e => .error e
  | .ok pg => if pg.marker then .error .notLoggedIn else .ok pg.table

/-- `Projector.mac_address`: call `_info()` directly (no retry, no
re-login) and index the result with "MAC Address".  Returns the
outcome, the unchanged `_logged_in` flag, and the observable events. -/
def mac_address (resp : Except PyError InfoPage) (st : Bool) :
    Except PyError String × Bool × List Ev :=
  match info_raw resp with
  | .error e =>
    (.error e, st, if e = .notLoggedIn then [Ev.markerObserved] else [])
  | .ok table =>
    match alookup table "MAC Address" with
    | some v => (.ok v, st, [])
    | none => (.error (.keyError "MAC Address"), st, [])

/-- `Projector.__init__` sets `self._logged_in = False`. -/
def projector_init_logged_in : Bool := false

/-- Decidable check behind the table round-trip claim: every enumerated
entry of `STATUS_VALUE_MAP` reverse-resolves each of its labels to the
original wire code through `STATUS_VALUE_TO_CODE_MAP`. -/
def c10Check : Bool :=
  STATUS_VALUE_MAP.all (fun kv =>
    match kv.2 with
    | .enum m => m.all (fun pr =>
        match alookup STATUS_VALUE_TO_CODE_MAP kv.1 with
        | some rm => alookup rm pr.2 = some pr.1
        | none => false)
    | .intCoerce => true)

/-- What the name-mapping comprehension keeps of one parsed pair: the
human-named entry for a code with a non-null descriptor, nothing for a
code mapped to `None`. -/
def dropReservedMap (kv : String × String) : Option (String × String) :=
  match alookup STATUS_TO_NAME_MAP kv.1 with
  | some (some n) => some (n, kv.2)
  | _ => none

/-- Trace property: every observation of the login-page marker is
immediately followed by the `_logged_in = False` assignment. -/
def markerFollowedByClear : List Ev → Bool
  | [] => true
  | .markerObserved :: rest =>
    (match rest.head? with
     | some .flagCleared => true
     | _ => false) && markerFollowedByClear rest
  | _ :: rest => markerFollowedByClear rest

/-! ## Rendering the claimed status grammar

`renderStatus` produces exactly the strings of the claim's grammar
`'{' (IDENT ':' QUOTED_STRING [','])* '}'`: one pair per list element,
with a boolean choosing whether the optional trailing comma is
present. -/

/-- Render one `IDENT ':' QUOTED_STRING [',']` group. -/
def renderPair : (String × String) × Bool → List Char
  | ((k, v), comma) =>
    k.data ++ [':', '"'] ++ v.data ++ ['"'] ++ (if comma then [','] else [])

/-- Render the groups of a status blob. -/
def renderPairs (l : List ((String × String) × Bool)) : List Char :=
  (l.map renderPair).flatten

/-- Render a whole status blob of the claimed grammar. -/
def renderStatus (l : List ((String × String) × Bool)) : List Char :=
  '\x7b' :: (renderPairs l ++ ['\x7d'])

/-- A grammatically well-formed pair: a nonempty alphabetic `IDENT`
and a quoted value free of the quote and newline characters, and of
tabs (which `parse_string`'s implicit `expandtabs()` would rewrite, so
a value containing a tab is not returned verbatim). -/
def wfPair (pb : (String × String) × Bool) : Prop :=
  pb.1.1.data ≠ [] ∧ (∀ c ∈ pb.1.1.data, isAsciiAlpha c = true) ∧
  (∀ c ∈ pb.1.2.data, qsOk c = true ∧ c ≠ '\t')

instance (pb : (String × String) × Bool) : Decidable (wfPair pb) := by
  unfold wfPair
  infer_instance


/-! ## Helper lemmas -/

theorem alookup_mem {α : Type} :
    ∀ {l : List (String × α)} {k : String} {v : α},
      alookup l k = some v → (k, v) ∈ l := by
  intro l
  induction l with
  | nil => intro k v h; simp [alookup] at h
  | cons hd tl ih =>
    intro k v h
    obtain ⟨k', v'⟩ := hd
    simp only [alookup] at h
    by_cases hk : k' = k
    · rw [if_pos hk] at h
      injection h with h
      subst hk; subst h
      exact List.mem_cons_self _ _
    · rw [if_neg hk] at h
      exact List.mem_cons_of_mem _ (ih h)

theorem c10Check_true : c10Check = true := by decide

theorem nameStage_ok :
    ∀ (parsed : List (String × String)) (acc : List (String × String)),
      (∀ kv ∈ parsed, (alookup STATUS_TO_NAME_MAP kv.1).isSome) →
      parsed.foldlM nameStep acc =
        .ok ((parsed.filterMap dropReservedMap).foldl
          (fun d kv => pyDictInsert d kv.1 kv.2) acc) := by
  intro parsed
  induction parsed with
  | nil => intro acc h; rfl
  | cons hd tl ih =>
    intro acc h
    have hhd := h hd (List.mem_cons_self _ _)
    have htl : ∀ kv ∈ tl, (alookup STATUS_TO_NAME_MAP kv.1).isSome :=
      fun kv hkv => h kv (List.mem_cons_of_mem _ hkv)
    cases hlk : alookup STATUS_TO_NAME_MAP hd.1 with
    | none => rw [hlk] at hhd; simp at hhd
    | some o =>
      cases o with
      | none =>
        have hstep : nameStep acc hd = .ok acc := by
          simp [nameStep, hlk]
        have hfm : (hd :: tl).filterMap dropReservedMap =
            tl.filterMap dropReservedMap := by
          simp [List.filterMap_cons, dropReservedMap, hlk]
        rw [List.foldlM_cons, hstep, hfm]
        simpa using ih acc htl
      | some n =>
        have hstep : nameStep acc hd = .ok (pyDictInsert acc n hd.2) := by
          simp [nameStep, hlk]
        have hfm : (hd :: tl).filterMap dropReservedMap =
            (n, hd.2) :: tl.filterMap dropReservedMap := by
          simp [List.filterMap_cons, dropReservedMap, hlk]
        rw [List.foldlM_cons, hstep, hfm]
        simpa using ih (pyDictInsert acc n hd.2) htl

theorem filterMap_filter_reserved :
    ∀ parsed : List (String × String),
      (∀ kv ∈ parsed, (alookup STATUS_TO_NAME_MAP kv.1).isSome) →
      (parsed.filter
        (fun kv => alookup STATUS_TO_NAME_MAP kv.1 ≠ some none)).filterMap
          dropReservedMap =
        parsed.filterMap dropReservedMap := by
  intro parsed
  induction parsed with
  | nil => intro h; rfl
  | cons hd tl ih =>
    intro h
    have hhd := h hd (List.mem_cons_self _ _)
    have htl : ∀ kv ∈ tl, (alookup STATUS_TO_NAME_MAP kv.1).isSome :=
      fun kv hkv => h kv (List.mem_cons_of_mem _ hkv)
    cases hlk : alookup STATUS_TO_NAME_MAP hd.1 with
    | none => rw [hlk] at hhd; simp at hhd
    | some o =>
      cases o with
      | none =>
        simp [List.filter_cons, List.filterMap_cons, dropReservedMap, hlk]
        simpa using ih htl
      | some n =>
        simp [List.filter_cons, List.filterMap_cons, dropReservedMap, hlk]
        simpa using ih htl

/-! ## Claim theorems -/

/-- C1: resolving the value to send for a valued setter does not
satisfy the `resolveSetValue` contract: the label `"On"` is a
recognized label of the Power Status field (its reverse map carries
`"On" → "1"`), yet the shared `set_value` expression indexes
`STATUS_VALUE_TO_CODE_MAP` by the label itself and raises
`KeyError("On")` instead of producing `"1"`; only the integer branch
(stringify directly) behaves as claimed. -/
theorem c1_resolve_label_keyerror :
    alookup STATUS_VALUE_TO_CODE_MAP "Power Status" =
      some [("Off", "0"), ("On", "1")] ∧
    alookup [("Off", "0"), ("On", "1")] "On" = some "1" ∧
    resolve_set_value (.str "On") = .error (.keyError "On") ∧
    resolve_set_value (.str "HDMI 1") = .error (.keyError "HDMI 1") ∧
    resolve_set_value (.int 7) = .ok (.pstr "7") :=
  ⟨rfl, rfl, rfl, rfl, rfl⟩

set_option maxRecDepth 8000 in
/-- C5: the login response is the lower-case hex MD5 digest of the
byte-for-byte concatenation `username ++ password ++ challenge`,
submitted in the `Response` field alongside `user="0"`, `Username="1"`
and empty `Password`/`Challenge` fields; for `admin`/`admin` and
challenge `abc123` the digest is that of the bytes of
`adminadminabc123`. -/
theorem c5_login_response_hash :
    (∀ u p c : String, login_request u p c =
      [("user", "0"), ("Username", "1"), ("Password", ""), ("Challenge", ""),
       ("Response", md5_hex (utf8_bytes (u ++ p ++ c)))]) ∧
    (∀ u p c : String,
      utf8_bytes (u ++ p ++ c) = utf8_bytes u ++ utf8_bytes p ++ utf8_bytes c) ∧
    ("admin" ++ "admin" ++ "abc123" : String) = "adminadminabc123" ∧
    md5_hex (utf8_bytes "adminadminabc123") =
      "c9ac29a8f214679f1c43c1b8f4ffd4a8" := by
  refine ⟨fun u p c => rfl, fun u p c => ?_, rfl, by decide⟩
  simp [utf8_bytes, String.data_append]

/-- C7: for a field with an enumerated value map, a recognized raw
status value translates to its label and an unrecognized raw value is
passed through unchanged without failing; in particular
`translate_value "Power Status" "1" = "On"` and
`translate_value "Power Status" "9" = "9"`. -/
theorem c7_translate_passthrough :
    (∀ (name : String) (m : List (String × String)),
      alookup STATUS_VALUE_MAP name = some (.enum m) →
      ∀ v : String,
        translate_value name v = .ok (.str ((alookup m v).getD v)) ∧
        (∀ code, alookup m v = some code →
          translate_value name v = .ok (.str code)) ∧
        (alookup m v = none → translate_value name v = .ok (.str v))) ∧
    translate_value "Power Status" "1" = .ok (.str "On") ∧
    translate_value "Power Status" "9" = .ok (.str "9") := by
  refine ⟨fun name m h v => ?_, rfl, rfl⟩
  have hv : translate_value name v = .ok (.str ((alookup m v).getD v)) := by
    rw [translate_value, h]
  refine ⟨hv, fun code hc => ?_, fun hn => ?_⟩
  · rw [hv, hc]; rfl
  · rw [hv, hn]; rfl

/-- Witness for C7 at a concrete field: the Source map translates the
recognized code `"2"` to `"VGA"` and passes the unrecognized code
`"41"` through unchanged. -/
theorem c7_translate_passthrough_witness :
    translate_value "Source" "2" = .ok (.str "VGA") ∧
    translate_value "Source" "41" = .ok (.str "41") :=
  ⟨(c7_translate_passthrough.1 "Source"
      [("0", "HDMI 1"), ("1", "HDMI 2/MHL"), ("2", "VGA")] rfl "2").2.1 "VGA" rfl,
   (c7_translate_passthrough.1 "Source"
      [("0", "HDMI 1"), ("1", "HDMI 2/MHL"), ("2", "VGA")] rfl "41").2.2 rfl⟩

/-- C8: the power operation is special-cased — an integer value is
stringified and compared with the wire code `"1"`, dispatching the
`btn_powon` trigger for `"1"` and the `btn_powoff` trigger for anything
else, never a generic value-set request — but a string label such as
`"On"` hits the broken outer-map subscript and raises `KeyError` before
any power state is determined. -/
theorem c8_power_dispatch :
    power_status (.int 1) = .ok power_on_request ∧
    power_status (.int 0) = .ok power_off_request ∧
    power_status (.int 255) = .ok power_off_request ∧
    power_on_request = [("btn_powon", "Power On")] ∧
    power_off_request = [("btn_powoff", "Power Off")] ∧
    power_status (.str "On") = .error (.keyError "On") :=
  ⟨rfl, rfl, rfl, rfl, rfl, rfl⟩

/-- C10: the value tables round-trip — for every field whose
`STATUS_VALUE_MAP` entry is an enumerated map and every code/label pair
in it, the precomputed reverse map of that field resolves the label
back to the original wire code. -/
theorem c10_reverse_roundtrip :
    ∀ (field : String) (m : List (String × String)),
      alookup STATUS_VALUE_MAP field = some (.enum m) →
      ∀ code label : String, (code, label) ∈ m →
        ∃ rm, alookup STATUS_VALUE_TO_CODE_MAP field = some rm ∧
          alookup rm label = some code := by
  intro field m hfield code label hmem
  have hin : (field, ValueMapping.enum m) ∈ STATUS_VALUE_MAP := alookup_mem hfield
  have hall := List.all_eq_true.mp c10Check_true _ hin
  simp only at hall
  have hpair := List.all_eq_true.mp hall (code, label) hmem
  revert hpair
  cases hrm : alookup STATUS_VALUE_TO_CODE_MAP field with
  | none => intro hpair; simp at hpair
  | some rm =>
    intro hpair
    exact ⟨rm, rfl, of_decide_eq_true hpair⟩

/-- Witness for C10: the Gamma field's code `"3"` with label
`"Standard(2.2)"` round-trips through the reverse map. -/
theorem c10_reverse_roundtrip_witness :
    ∃ rm, alookup STATUS_VALUE_TO_CODE_MAP "Gamma" = some rm ∧
      alookup rm "Standard(2.2)" = some "3" :=
  c10_reverse_roundtrip "Gamma"
    [("0", "Film"), ("1", "Video"), ("2", "Graphics"), ("3", "Standard(2.2)"),
     ("4", "1.8"), ("5", "2.0"), ("6", "2.4"), ("7", "3D"), ("8", "2.6"),
     ("9", "HDR"), ("10", "HLG"), ("11", "Blackboard"), ("12", "DICOM SIM"),
     ("255", VALUE_NOT_AVAILABLE)] rfl "3" "Standard(2.2)" (by decide)

/-- C2 counterexample: `"s"` is an alphabetic wire code the status
parser accepts but that is entirely absent from `STATUS_TO_NAME_MAP`;
translating a parsed status containing it raises `KeyError("s")`
instead of dropping it silently, refuting the claim that codes unknown
to the code-to-name table never cause an error. -/
theorem c2_unknown_code_raises :
    alookup STATUS_TO_NAME_MAP "s" = none ∧
    parse_status_response "\x7bs:\"0\"\x7d" = .ok [("s", "0")] ∧
    status_translate [("s", "0")] = .error (.keyError "s") :=
  ⟨rfl, rfl, rfl⟩

/-- C2 (amended): for a parsed status whose codes all appear in
`STATUS_TO_NAME_MAP`, the translation never raises because of a code
with a null descriptor: such codes are dropped silently, the
name-mapped output is exactly the entries with a non-null descriptor,
and the translated result is unchanged if the null-descriptor codes
are removed from the input.  Codes absent from the table altogether
raise `KeyError` instead. -/
theorem c2_reserved_dropped :
    ∀ parsed : List (String × String),
      (∀ kv ∈ parsed, (alookup STATUS_TO_NAME_MAP kv.1).isSome) →
      translate_names parsed = .ok (pyDict (parsed.filterMap dropReservedMap)) ∧
      status_translate parsed =
        status_translate (parsed.filter
          (fun kv => alookup STATUS_TO_NAME_MAP kv.1 ≠ some none)) := by
  intro parsed h
  have h1 : translate_names parsed =
      .ok (pyDict (parsed.filterMap dropReservedMap)) :=
    nameStage_ok parsed [] h
  refine ⟨h1, ?_⟩
  have hsub : ∀ kv ∈ parsed.filter
      (fun kv => alookup STATUS_TO_NAME_MAP kv.1 ≠ some none),
      (alookup STATUS_TO_NAME_MAP kv.1).isSome :=
    fun kv hkv => h kv (List.mem_of_mem_filter hkv)
  have h2 : translate_names (parsed.filter
      (fun kv => alookup STATUS_TO_NAME_MAP kv.1 ≠ some none)) =
      .ok (pyDict (parsed.filterMap dropReservedMap)) :=
    (nameStage_ok _ [] hsub).trans
      (by rw [filterMap_filter_reserved parsed h]; rfl)
  rw [status_translate, status_translate, h1, h2]

/-- Witness for C2: a parsed status holding the known codes `pw` and
`j` (the latter mapped to `None`) translates with the reserved code
dropped silently, and removing it does not change the result. -/
theorem c2_reserved_dropped_witness :
    translate_names [("pw", "1"), ("j", "7")] = .ok [("Power Status", "1")] ∧
    status_translate [("pw", "1"), ("j", "7")] = status_translate [("pw", "1")] := by
  have h := c2_reserved_dropped [("pw", "1"), ("j", "7")] (by decide)
  exact ⟨h.1, h.2⟩

/-- C6: `_login` fails with `LoginPageFailure` exactly when the login
page cannot be retrieved or lacks the hidden `Challenge` input; once a
challenge was obtained it fails with `LoginFailure` exactly when the
submission fails at the transport/HTTP level or the response lacks an
`ATOP` cookie; it succeeds exactly when the `ATOP` cookie is present on
a successful submission, and only then does `_logged_in` become true. -/
theorem c6_login_classification :
    ∀ (u p : String) (w : LoginWorld) (st : Bool),
      ((login u p w st).1 = .error .loginPageFailure ↔
        ((∃ e, w.page = .error e) ∨ w.page = .ok none)) ∧
      (∀ ch, w.page = .ok (some ch) →
        ((∃ msg, (login u p w st).1 = .error (.loginFailure msg)) ↔
          ((∃ e, w.submit = .error e) ∨
           (∃ r, w.submit = .ok r ∧
             (400 ≤ r.status ∨ "ATOP" ∉ r.cookies))))) ∧
      ((login u p w st).1 = .ok () ↔
        ((∃ ch, w.page = .ok (some ch)) ∧
         (∃ r, w.submit = .ok r ∧ r.status < 400 ∧
           "ATOP" ∈ r.cookies))) ∧
      ((login u p w st).1 = .ok () → (login u p w st).2 = true) ∧
      ((login u p w st).1 ≠ .ok () → (login u p w st).2 = st) := by
  intro u p w st
  obtain ⟨pg, sub⟩ := w
  cases pg with
  | error e => simp [login]
  | ok och =>
    cases och with
    | none => simp [login]
    | some ch =>
      cases sub with
      | error e => simp [login]
      | ok r =>
        by_cases hs : 400 ≤ r.status
        · simp [login, hs, Nat.not_lt.mpr hs]
        · by_cases hm : "ATOP" ∈ r.cookies
          · simp [login, hs, hm, Nat.lt_of_not_le hs]
          · simp [login, hs, hm, Nat.lt_of_not_le hs]

/-- Witness for C6 at concrete login environments: a page with a
challenge, a 200 submission and an `ATOP` cookie logs in; a page
without the `Challenge` input fails with `LoginPageFailure`. -/
theorem c6_login_classification_witness :
    (login "admin" "admin" ⟨.ok (some "ch"), .ok ⟨200, ["ATOP"]⟩⟩ false).1 =
      .ok () ∧
    (login "admin" "admin" ⟨.ok none, .ok ⟨200, ["ATOP"]⟩⟩ false).1 =
      .error .loginPageFailure :=
  ⟨(c6_login_classification "admin" "admin"
      ⟨.ok (some "ch"), .ok ⟨200, ["ATOP"]⟩⟩ false).2.2.1.mpr
    ⟨⟨"ch", rfl⟩, ⟨⟨200, ["ATOP"]⟩, rfl, by decide, by decide⟩⟩,
   (c6_login_classification "admin" "admin"
      ⟨.ok none, .ok ⟨200, ["ATOP"]⟩⟩ false).1.mpr (Or.inr rfl)⟩

theorem runCtlAux_ok {α : Type} (u p : String)
    (attempts : Nat → Except PyError α) (logins : Nat → LoginWorld)
    (rem n li : Nat) (st : Bool) (a : α) (hn : attempts n = .ok a) :
    runCtlAux u p attempts logins rem n li st =
      ⟨st, .ok a, [.attemptStart n]⟩ := by
  cases rem <;> simp [runCtlAux, hn]

theorem runCtlAux_fatal {α : Type} (u p : String)
    (attempts : Nat → Except PyError α) (logins : Nat → LoginWorld)
    (rem n li : Nat) (st : Bool) (e : PyError)
    (hne : e ≠ .notLoggedIn) (hnc : e ≠ .connectionError)
    (hn : attempts n = .error e) :
    runCtlAux u p attempts logins rem n li st =
      ⟨st, .error e, [.attemptStart n]⟩ := by
  cases rem <;> cases e <;> simp_all [runCtlAux]

/-- C3: the retry policy classifies errors exactly as claimed — a
`NotLoggedIn` failure clears the session flag, performs one forced
login and retries the original request; a connection-level transport
error is retried without any re-login; any other error (such as a
non-2xx `HTTPError`) propagates immediately after a single attempt;
and with attempt limit 3, three consecutive `NotLoggedIn` failures
surface `NotLoggedIn` itself after exactly three attempts, with no
fourth. -/
theorem c3_retry_classification :
    ∀ {α : Type} (u p : String) (attempts : Nat → Except PyError α)
      (logins : Nat → LoginWorld) (limit : Nat) (st : Bool),
      (∀ a : α, attempts 1 = .error .notLoggedIn → attempts 2 = .ok a →
        login u p (logins 1) false = (.ok (), true) → 2 ≤ limit →
        control_with_retry u p attempts logins limit st =
          ⟨true, .ok a, [.attemptStart 1, .markerObserved, .flagCleared,
            .loginStart false, .loginDone, .attemptStart 2]⟩) ∧
      ((∀ n, attempts n = .error .notLoggedIn) →
        (∀ i, login u p (logins i) false = (.ok (), true)) →
        control_with_retry u p attempts logins 3 st =
          ⟨true, .error .notLoggedIn,
           [.attemptStart 1, .markerObserved, .flagCleared, .loginStart false,
            .loginDone,
            .attemptStart 2, .markerObserved, .flagCleared, .loginStart false,
            .loginDone,
            .attemptStart 3, .markerObserved, .flagCleared, .loginStart false,
            .loginDone]⟩) ∧
      (∀ e : PyError, e ≠ .notLoggedIn → e ≠ .connectionError →
        attempts 1 = .error e →
        control_with_retry u p attempts logins limit st =
          ⟨st, .error e, [.attemptStart 1]⟩) ∧
      (∀ a : α, attempts 1 = .error .connectionError → attempts 2 = .ok a →
        2 ≤ limit →
        control_with_retry u p attempts logins limit st =
          ⟨st, .ok a, [.attemptStart 1, .attemptStart 2]⟩) := by
  intro α u p attempts logins limit st
  refine ⟨?_, ?_, ?_, ?_⟩
  · intro a h1 h2 hl hlim
    obtain ⟨r, hr⟩ : ∃ r, limit - 1 = r + 1 := ⟨limit - 2, by omega⟩
    show runCtlAux u p attempts logins (limit - 1) 1 1 st = _
    rw [hr]
    simp [runCtlAux, h1, hl,
      runCtlAux_ok u p attempts logins r 2 2 true a h2]
  · intro hatt hlog
    show runCtlAux u p attempts logins 2 1 1 st = _
    simp [runCtlAux, hatt, hlog]
  · intro e hne hnc h1
    exact runCtlAux_fatal u p attempts logins (limit - 1) 1 1 st e hne hnc h1
  · intro a h1 h2 hlim
    obtain ⟨r, hr⟩ : ∃ r, limit - 1 = r + 1 := ⟨limit - 2, by omega⟩
    show runCtlAux u p attempts logins (limit - 1) 1 1 st = _
    rw [hr]
    simp [runCtlAux, h1,
      runCtlAux_ok u p attempts logins r 2 1 st a h2]

/-- Witness for C3 at concrete inputs: with limit 3, a first-attempt
`NotLoggedIn` followed by a success yields the result after one
re-login, and a first-attempt HTTP 500 propagates after one attempt. -/
theorem c3_retry_classification_witness :
    control_with_retry "admin" "admin"
      (fun n => if n = 1 then .error .notLoggedIn else .ok (42 : Nat))
      (fun _ => ⟨.ok (some "ch"), .ok ⟨200, ["ATOP"]⟩⟩) 3 true =
      ⟨true, .ok 42, [.attemptStart 1, .markerObserved, .flagCleared,
        .loginStart false, .loginDone, .attemptStart 2]⟩ ∧
    control_with_retry "admin" "admin"
      (fun _ => (.error (.httpError 500) : Except PyError Nat))
      (fun _ => ⟨.ok (some "ch"), .ok ⟨200, ["ATOP"]⟩⟩) 3 false =
      ⟨false, .error (.httpError 500), [.attemptStart 1]⟩ :=
  ⟨(c3_retry_classification "admin" "admin" _ _ 3 true).1 42 rfl rfl rfl
      (by decide),
   (c3_retry_classification "admin" "admin" _ _ 3 false).2.2.1
      (.httpError 500) (by decide) (by decide) rfl⟩

theorem runCtl_trace_invariant {α : Type} (u p : String)
    (attempts : Nat → Except PyError α) (logins : Nat → LoginWorld) :
    ∀ (rem n li : Nat) (st : Bool),
      markerFollowedByClear
        (runCtlAux u p attempts logins rem n li st).trace = true ∧
      (∀ b, Ev.loginStart b ∈
        (runCtlAux u p attempts logins rem n li st).trace → b = false) := by
  intro rem
  induction rem with
  | zero =>
    intro n li st
    cases hA : attempts n with
    | ok a => simp [runCtlAux, hA, markerFollowedByClear]
    | error e =>
      cases e with
      | notLoggedIn =>
        cases hL : login u p (logins li) false with
        | mk lres st2 =>
          cases lres <;> simp [runCtlAux, hA, hL, markerFollowedByClear]
      | connectionError => simp [runCtlAux, hA, markerFollowedByClear]
      | keyError k => simp [runCtlAux, hA, markerFollowedByClear]
      | valueError s => simp [runCtlAux, hA, markerFollowedByClear]
      | notImplementedError s => simp [runCtlAux, hA, markerFollowedByClear]
      | httpError c => simp [runCtlAux, hA, markerFollowedByClear]
      | loginPageFailure => simp [runCtlAux, hA, markerFollowedByClear]
      | loginFailure m => simp [runCtlAux, hA, markerFollowedByClear]
      | otherError s => simp [runCtlAux, hA, markerFollowedByClear]
  | succ r ih =>
    intro n li st
    cases hA : attempts n with
    | ok a => simp [runCtlAux, hA, markerFollowedByClear]
    | error e =>
      cases e with
      | notLoggedIn =>
        cases hL : login u p (logins li) false with
        | mk lres st2 =>
          cases lres with
          | error le => simp [runCtlAux, hA, hL, markerFollowedByClear]
          | ok v =>
            have hrest := ih (n + 1) (li + 1) st2
            have hunf : runCtlAux u p attempts logins (r + 1) n li st =
                ⟨(runCtlAux u p attempts logins r (n + 1) (li + 1) st2).state,
                 (runCtlAux u p attempts logins r (n + 1) (li + 1) st2).result,
                 [Ev.attemptStart n, Ev.markerObserved, Ev.flagCleared,
                  Ev.loginStart false, Ev.loginDone] ++
                   (runCtlAux u p attempts logins r (n + 1) (li + 1) st2).trace⟩ := by
              simp [runCtlAux, hA, hL]
            rw [hunf]
            constructor
            · simp [markerFollowedByClear, hrest.1]
            · intro b hb
              simp at hb
              rcases hb with hb | hb
              · exact hb
              · exact hrest.2 b hb
      | connectionError =>
        have hrest := ih (n + 1) li st
        have hunf : runCtlAux u p attempts logins (r + 1) n li st =
            ⟨(runCtlAux u p attempts logins r (n + 1) li st).state,
             (runCtlAux u p attempts logins r (n + 1) li st).result,
             Ev.attemptStart n ::
               (runCtlAux u p attempts logins r (n + 1) li st).trace⟩ := by
          simp [runCtlAux, hA]
        rw [hunf]
        constructor
        · simp [markerFollowedByClear, hrest.1]
        · intro b hb
          simp at hb
          exact hrest.2 b hb
      | keyError k => simp [runCtlAux, hA, markerFollowedByClear]
      | valueError s => simp [runCtlAux, hA, markerFollowedByClear]
      | notImplementedError s => simp [runCtlAux, hA, markerFollowedByClear]
      | httpError c => simp [runCtlAux, hA, markerFollowedByClear]
      | loginPageFailure => simp [runCtlAux, hA, markerFollowedByClear]
      | loginFailure m => simp [runCtlAux, hA, markerFollowedByClear]
      | otherError s => simp [runCtlAux, hA, markerFollowedByClear]

/-- C9 counterexample: `mac_address` calls the unwrapped `_info`, so
with `_logged_in = True` and an `Info.htm` response bearing the
login-page marker, the marker is observed and `NotLoggedIn` raised,
yet the state stays `True` — the claim that every marker observation
forces the state back to LoggedOut fails on this path. -/
theorem c9_marker_without_logout :
    (mac_address (.ok ⟨true, []⟩) true).2.2 = [Ev.markerObserved] ∧
    (mac_address (.ok ⟨true, []⟩) true).2.1 = true ∧
    (mac_address (.ok ⟨true, []⟩) true).1 = .error .notLoggedIn :=
  ⟨rfl, rfl, rfl⟩

/-- C9 (amended): the client is constructed LoggedOut; a successful
login sets the flag true while a failed login leaves it unchanged; and
along every retry-wrapped control/info execution, each observation of
the login-page marker is immediately followed by the
`_logged_in = False` assignment and every login started by the retry
handler starts from the LoggedOut state.  The direct `mac_address`
info path raises `NotLoggedIn` without resetting the flag. -/
theorem c9_session_state_machine :
    projector_init_logged_in = false ∧
    (∀ (u p : String) (w : LoginWorld) (st : Bool),
      ((login u p w st).1 = .ok () → (login u p w st).2 = true) ∧
      ((login u p w st).1 ≠ .ok () → (login u p w st).2 = st)) ∧
    (∀ {α : Type} (u p : String) (attempts : Nat → Except PyError α)
       (logins : Nat → LoginWorld) (limit : Nat) (st : Bool),
      markerFollowedByClear
        (control_with_retry u p attempts logins limit st).trace = true ∧
      (∀ b, Ev.loginStart b ∈
        (control_with_retry u p attempts logins limit st).trace →
        b = false)) := by
  refine ⟨rfl, ?_, ?_⟩
  · intro u p w st
    obtain ⟨pg, sub⟩ := w
    cases pg with
    | error e => simp [login]
    | ok och =>
      cases och with
      | none => simp [login]
      | some ch =>
        cases sub with
        | error e => simp [login]
        | ok r =>
          by_cases hs : 400 ≤ r.status
          · simp [login, hs]
          · by_cases hm : "ATOP" ∈ r.cookies
            · simp [login, hs, hm]
            · simp [login, hs, hm]
  · intro α u p attempts logins limit st
    exact runCtl_trace_invariant u p attempts logins (limit - 1) 1 1 st

/-- Witness for C9 at concrete inputs: a successful concrete login
sets the flag, and a concrete wrapped run that keeps hitting the
marker satisfies the marker/flag trace invariant and never starts a
login from the LoggedIn state. -/
theorem c9_session_state_machine_witness :
    (login "admin" "admin" ⟨.ok (some "ch"), .ok ⟨200, ["ATOP"]⟩⟩ false).2 =
      true ∧
    markerFollowedByClear (control_with_retry "admin" "admin"
      (fun _ => (.error .notLoggedIn : Except PyError Nat))
      (fun _ => ⟨.ok (some "ch"), .ok ⟨200, ["ATOP"]⟩⟩) 3 true).trace = true ∧
    Ev.loginStart true ∉ (control_with_retry "admin" "admin"
      (fun _ => (.error .notLoggedIn : Except PyError Nat))
      (fun _ => ⟨.ok (some "ch"), .ok ⟨200, ["ATOP"]⟩⟩) 3 true).trace := by
  refine ⟨(c9_session_state_machine.2.1 "admin" "admin" _ false).1 rfl,
    (c9_session_state_machine.2.2 "admin" "admin" _ _ 3 true).1,
    fun hmem => ?_⟩
  have hb := (c9_session_state_machine.2.2 "admin" "admin"
    (fun _ => (.error .notLoggedIn : Except PyError Nat))
    (fun _ => ⟨.ok (some "ch"), .ok ⟨200, ["ATOP"]⟩⟩) 3 true).2 true hmem
  exact Bool.noConfusion hb

theorem alpha_char_facts :
    ∀ c ∈ ppAlphas, wsChar c = false ∧ c ≠ ':' ∧ c ≠ ',' ∧ c ≠ '"' ∧
      c ≠ '\x7d' ∧ c ≠ '\x7b' ∧ c ≠ '\t' := by decide

theorem takeWhile_append_of_all {p : Char → Bool} :
    ∀ (l1 : List Char) (c : Char) (l2 : List Char),
      (∀ x ∈ l1, p x = true) → p c = false →
      (l1 ++ c :: l2).takeWhile p = l1 ∧
        (l1 ++ c :: l2).dropWhile p = c :: l2 := by
  intro l1
  induction l1 with
  | nil =>
    intro c l2 _ hc
    simp [List.takeWhile_cons, List.dropWhile_cons, hc]
  | cons hd tl ih =>
    intro c l2 hall hc
    have hhd : p hd = true := hall hd (List.mem_cons_self _ _)
    have htl := ih c l2 (fun x hx => hall x (List.mem_cons_of_mem _ hx)) hc
    simp [List.takeWhile_cons, List.dropWhile_cons, hhd, htl.1, htl.2]

theorem skipWs_cons {c : Char} (cs : List Char) (h : wsChar c = false) :
    skipWs (c :: cs) = c :: cs := by
  simp [skipWs, List.dropWhile_cons, h]

theorem skipWs_alpha_append (k : List Char) (hk : k ≠ [])
    (hall : ∀ c ∈ k, isAsciiAlpha c = true) (X : List Char) :
    skipWs (k ++ X) = k ++ X := by
  cases k with
  | nil => exact absurd rfl hk
  | cons k0 ks =>
    have h0 := (alpha_char_facts k0
      (of_decide_eq_true (hall k0 (List.mem_cons_self _ _)))).1
    rw [List.cons_append]
    exact skipWs_cons _ h0

theorem parseWord_render (k : List Char) (hk : k ≠ [])
    (hall : ∀ c ∈ k, isAsciiAlpha c = true)
    (c : Char) (hc : isAsciiAlpha c = false) (rest : List Char) :
    parseWord (k ++ c :: rest) = some (k, c :: rest) := by
  obtain ⟨ht, hd⟩ := takeWhile_append_of_all k c rest hall hc
  cases k with
  | nil => exact absurd rfl hk
  | cons k0 ks =>
    unfold parseWord
    rw [ht, hd]

theorem parseQuoted_render (v : List Char) (hv : ∀ c ∈ v, qsOk c = true)
    (rest : List Char) :
    parseQuoted ('"' :: (v ++ '"' :: rest)) = some (v, rest) := by
  obtain ⟨ht, hd⟩ := takeWhile_append_of_all v '"' rest hv rfl
  simp [parseQuoted, ht, hd]

theorem expectChar_self (c : Char) (rest : List Char) :
    expectChar c (c :: rest) = some rest := by
  simp [expectChar]

theorem expectChar_ne {c c' : Char} (rest : List Char) (h : c' ≠ c) :
    expectChar c (c' :: rest) = none := by
  simp [expectChar, h]

theorem parseGroup_render (k v : String) (b : Bool)
    (hwf : wfPair ((k, v), b)) (hc : Char) (t : List Char)
    (hhw : wsChar hc = false) (hhc : hc ≠ ',') :
    parseGroup (renderPair ((k, v), b) ++ hc :: t) =
      some ((k, v), hc :: t) := by
  obtain ⟨hk, hka, hvq⟩ := hwf
  cases b with
  | true =>
    have harr : renderPair ((k, v), true) ++ hc :: t =
        k.data ++ (':' :: '"' :: (v.data ++ '"' :: ',' :: hc :: t)) := by
      simp [renderPair]
    have e1 := skipWs_alpha_append k.data hk hka
      (':' :: '"' :: (v.data ++ '"' :: ',' :: hc :: t))
    have e2 := parseWord_render k.data hk hka ':' (by decide)
      ('"' :: (v.data ++ '"' :: ',' :: hc :: t))
    rw [harr]
    unfold parseGroup
    rw [e1, e2]
    simp only []
    rw [skipWs_cons ('"' :: (v.data ++ '"' :: ',' :: hc :: t)) (by decide),
      expectChar_self]
    simp only []
    rw [skipWs_cons (v.data ++ '"' :: ',' :: hc :: t) (by decide),
      parseQuoted_render v.data (fun c hcm => (hvq c hcm).1) (',' :: hc :: t)]
    simp only []
    rw [skipWs_cons (hc :: t) (by decide), expectChar_self]
  | false =>
    have harr : renderPair ((k, v), false) ++ hc :: t =
        k.data ++ (':' :: '"' :: (v.data ++ '"' :: hc :: t)) := by
      simp [renderPair]
    have e1 := skipWs_alpha_append k.data hk hka
      (':' :: '"' :: (v.data ++ '"' :: hc :: t))
    have e2 := parseWord_render k.data hk hka ':' (by decide)
      ('"' :: (v.data ++ '"' :: hc :: t))
    rw [harr]
    unfold parseGroup
    rw [e1, e2]
    simp only []
    rw [skipWs_cons ('"' :: (v.data ++ '"' :: hc :: t)) (by decide),
      expectChar_self]
    simp only []
    rw [skipWs_cons (v.data ++ '"' :: hc :: t) (by decide),
      parseQuoted_render v.data (fun c hcm => (hvq c hcm).1) (hc :: t)]
    simp only []
    rw [skipWs_cons t hhw, expectChar_ne t hhc]

theorem renderTail_head :
    ∀ (l : List ((String × String) × Bool)), (∀ pb ∈ l, wfPair pb) →
      ∃ hc t, renderPairs l ++ ['\x7d'] = hc :: t ∧ wsChar hc = false ∧
        hc ≠ ',' := by
  intro l hwf
  cases l with
  | nil => exact ⟨'\x7d', [], by simp [renderPairs], by decide, by decide⟩
  | cons pb l' =>
    obtain ⟨⟨k, v⟩, b⟩ := pb
    obtain ⟨hk, hka, hvq⟩ := hwf _ (List.mem_cons_self _ _)
    cases hkd : k.data with
    | nil => exact absurd hkd hk
    | cons k0 ks =>
      have h0 := alpha_char_facts k0 (of_decide_eq_true (by
        apply hka; rw [hkd]; exact List.mem_cons_self _ _))
      refine ⟨k0, ks ++ [':', '"'] ++ v.data ++ ['"'] ++
        (if b then [','] else []) ++ (renderPairs l' ++ ['\x7d']), ?_,
        h0.1, h0.2.2.1⟩
      simp [renderPairs, renderPair, hkd]

theorem parseGroups_stop {cs : List Char} (h : parseGroup cs = none) :
    ∀ fuel, parseGroups fuel cs = none := by
  intro fuel
  cases fuel with
  | zero => rfl
  | succ f => simp [parseGroups, h]

theorem parseGroups_render :
    ∀ (l : List ((String × String) × Bool)), l ≠ [] →
      (∀ pb ∈ l, wfPair pb) →
      ∀ fuel : Nat, l.length < fuel →
      parseGroups fuel (renderPairs l ++ ['\x7d']) =
        some (l.map (fun pb => pb.1), ['\x7d']) := by
  intro l
  induction l with
  | nil => intro h; exact absurd rfl h
  | cons pb l' ih =>
    intro _ hwf fuel hfuel
    obtain ⟨⟨k, v⟩, b⟩ := pb
    obtain ⟨f, rfl⟩ : ∃ f, fuel = f + 1 := ⟨fuel - 1, by omega⟩
    obtain ⟨hc, t, hct, hcw, hcc⟩ :=
      renderTail_head l' (fun q hq => hwf q (List.mem_cons_of_mem _ hq))
    have hsplit : renderPairs (((k, v), b) :: l') ++ ['\x7d'] =
        renderPair ((k, v), b) ++ (renderPairs l' ++ ['\x7d']) := by
      simp [renderPairs]
    have hg : parseGroup (renderPairs (((k, v), b) :: l') ++ ['\x7d']) =
        some ((k, v), renderPairs l' ++ ['\x7d']) := by
      rw [hsplit, hct]
      exact parseGroup_render k v b (hwf _ (List.mem_cons_self _ _)) hc t hcw hcc
    cases l' with
    | nil =>
      have hnone := parseGroups_stop
        (show parseGroup ['\x7d'] = none from by decide) f
      simp [renderPairs] at hg
      simp [parseGroups, renderPairs, hg, hnone]
    | cons q l'' =>
      have hrec := ih (by simp)
        (fun x hx => hwf x (List.mem_cons_of_mem _ hx)) f
        (by simpa using Nat.lt_of_succ_lt_succ hfuel)
      simp [renderPairs] at hg hrec
      simp [parseGroups, renderPairs, hg, hrec]

theorem renderPairs_length_ge :
    ∀ l : List ((String × String) × Bool),
      l.length ≤ (renderPairs l).length := by
  intro l
  induction l with
  | nil => simp [renderPairs]
  | cons pb l' ih =>
    obtain ⟨⟨k, v⟩, b⟩ := pb
    cases b <;> simp [renderPairs, renderPair] at ih ⊢ <;> omega

theorem statusGrammarParse_render (l : List ((String × String) × Bool))
    (hl : l ≠ []) (hwf : ∀ pb ∈ l, wfPair pb) :
    statusGrammarParse (renderStatus l) = some (l.map (fun pb => pb.1)) := by
  have hlen : l.length < (renderPairs l ++ ['\x7d']).length + 1 := by
    have := renderPairs_length_ge l
    simp only [List.length_append, List.length_cons, List.length_nil]
    omega
  unfold statusGrammarParse renderStatus
  rw [skipWs_cons _ (by decide), expectChar_self]
  simp only []
  rw [parseGroups_render l hl hwf _ hlen]
  simp only []
  rw [skipWs_cons _ (by decide), expectChar_self]

theorem pyDictInsert_append {α : Type} (acc : List (String × α))
    (k : String) (v : α) (h : k ∉ acc.map Prod.fst) :
    pyDictInsert acc k v = acc ++ [(k, v)] := by
  have hany : acc.any (fun kv => kv.1 = k) = false := by
    rw [Bool.eq_false_iff]
    intro hsome
    obtain ⟨kv, hkv, hek⟩ := List.any_eq_true.mp hsome
    exact h (List.mem_map.mpr ⟨kv, hkv, of_decide_eq_true hek⟩)
  simp [pyDictInsert, hany]

theorem pyDict_foldl_eq_append {α : Type} :
    ∀ (ps acc : List (String × α)),
      ((acc ++ ps).map Prod.fst).Nodup →
      ps.foldl (fun d kv => pyDictInsert d kv.1 kv.2) acc = acc ++ ps := by
  intro ps
  induction ps with
  | nil => intro acc _; simp
  | cons hd tl ih =>
    intro acc h
    have hk : hd.1 ∉ acc.map Prod.fst := by
      rw [List.map_append] at h
      have hdisj := (List.nodup_append.mp h).2.2
      intro hmem
      exact hdisj hmem (by simp)
    rw [List.foldl_cons, pyDictInsert_append acc hd.1 hd.2 hk]
    rw [List.append_cons] at h
    have := ih (acc ++ [(hd.1, hd.2)]) h
    simpa [List.append_assoc] using this

theorem pyDict_eq_self {α : Type} (ps : List (String × α))
    (h : (ps.map Prod.fst).Nodup) : pyDict ps = ps := by
  have := pyDict_foldl_eq_append ps [] (by simpa)
  simpa [pyDict] using this

theorem pyExpandtabsAux_id :
    ∀ cs : List Char, (∀ c ∈ cs, c ≠ '\t') → ∀ col : Nat,
      pyExpandtabsAux col cs = cs := by
  intro cs
  induction cs with
  | nil => intro _ col; rfl
  | cons c rest ih =>
    intro h col
    have hc : c ≠ '\t' := h c (List.mem_cons_self _ _)
    have hr := ih (fun x hx => h x (List.mem_cons_of_mem _ hx))
    simp only [pyExpandtabsAux, if_neg hc]
    split
    · rw [hr 0]
    · rw [hr (col + 1)]

theorem renderPair_no_tab (k v : String) (b : Bool)
    (hwf : wfPair ((k, v), b)) :
    ∀ c ∈ renderPair ((k, v), b), c ≠ '\t' := by
  obtain ⟨hk, hka, hvq⟩ := hwf
  intro c hc
  simp only [renderPair] at hc
  rcases List.mem_append.mp hc with hA | hIte
  · rcases List.mem_append.mp hA with hB | hQ
    · rcases List.mem_append.mp hB with hC | hV
      · rcases List.mem_append.mp hC with hK | hP
        · exact (alpha_char_facts c
            (of_decide_eq_true (hka c hK))).2.2.2.2.2.2
        · rcases List.mem_cons.mp hP with rfl | hP2
          · decide
          · rcases List.mem_cons.mp hP2 with rfl | hP3
            · decide
            · exact absurd hP3 (List.not_mem_nil c)
      · exact (hvq c hV).2
    · rcases List.mem_cons.mp hQ with rfl | hQ2
      · decide
      · exact absurd hQ2 (List.not_mem_nil c)
  · cases b with
    | true =>
      rcases List.mem_cons.mp hIte with rfl | h2
      · decide
      · exact absurd h2 (List.not_mem_nil c)
    | false => exact absurd hIte (List.not_mem_nil c)

theorem renderStatus_no_tab (l : List ((String × String) × Bool))
    (hwf : ∀ pb ∈ l, wfPair pb) :
    ∀ c ∈ renderStatus l, c ≠ '\t' := by
  intro c hc
  simp only [renderStatus, List.mem_cons, List.mem_append,
    List.not_mem_nil, or_false] at hc
  rcases hc with rfl | hc | rfl
  · decide
  · simp only [renderPairs, List.mem_flatten, List.mem_map] at hc
    obtain ⟨piece, ⟨pb, hpb, rfl⟩, hcp⟩ := hc
    obtain ⟨⟨k, v⟩, b⟩ := pb
    exact renderPair_no_tab k v b (hwf _ hpb) c hcp
  · decide

theorem pyExpandtabs_renderStatus (l : List ((String × String) × Bool))
    (hwf : ∀ pb ∈ l, wfPair pb) :
    pyExpandtabs (renderStatus l) = renderStatus l :=
  pyExpandtabsAux_id _ (renderStatus_no_tab l hwf) 0

/-- C4 counterexample: `"\x7b\x7d"` — the rendering of the claim's
grammar with zero pairs — is rejected by the status parser (the source
grammar uses `OneOrMore`, requiring at least one pair), refuting the
claim's star repetition. -/
theorem c4_zero_pairs_rejected :
    renderStatus [] = "\x7b\x7d".data ∧
    parse_status_response "\x7b\x7d" = .error ⟨"\x7b\x7d"⟩ :=
  ⟨rfl, rfl⟩

/-- C4 (amended): for every input of the grammar
`'\x7b' (IDENT ':' QUOTED_STRING [','])+ '\x7d'` — one or more pairs,
idents nonempty alphabetic, values free of the quote and newline
characters and of tabs (`parse_string` implicitly tab-expands its
input, so a value containing a tab would not be returned verbatim) —
the status parser succeeds with the code/value pairs in input order
(in particular on `\x7bpw:"1",a:"0"\x7d`); zero-pair input is
rejected; the malformed inputs (unbalanced brace, missing colon,
unterminated string) fail with a `ParseException` carrying the
(tab-expanded, here unchanged) input text; and input after the closing
brace is ignored rather than rejected. -/
theorem c4_grammar_parse :
    (∀ l : List ((String × String) × Bool), l ≠ [] →
      (∀ pb ∈ l, wfPair pb) →
      (l.map (fun pb => pb.1.1)).Nodup →
      parse_status_response (String.mk (renderStatus l)) =
        .ok (l.map (fun pb => pb.1))) ∧
    parse_status_response "\x7bpw:\"1\",a:\"0\"\x7d" =
      .ok [("pw", "1"), ("a", "0")] ∧
    parse_status_response "\x7bpw:\"1\"" = .error ⟨"\x7bpw:\"1\""⟩ ∧
    parse_status_response "\x7bpw \"1\"\x7d" = .error ⟨"\x7bpw \"1\"\x7d"⟩ ∧
    parse_status_response "\x7bpw:\"1\x7d" = .error ⟨"\x7bpw:\"1\x7d"⟩ ∧
    parse_status_response "\x7bpw:\"1\"\x7dgarbage" = .ok [("pw", "1")] := by
  refine ⟨?_, rfl, rfl, rfl, rfl, rfl⟩
  intro l hl hwf hnd
  have hparse := statusGrammarParse_render l hl hwf
  have hdict : pyDict (l.map (fun pb => pb.1)) = l.map (fun pb => pb.1) := by
    apply pyDict_eq_self
    rw [List.map_map]
    exact hnd
  unfold parse_status_response
  rw [show (String.mk (renderStatus l)).data = renderStatus l from rfl,
    pyExpandtabs_renderStatus l hwf, hparse]
  simp only []
  rw [hdict]

/-- Witness for C4 at a concrete rendering: the two-pair blob
`\x7bpw:"1",a:"0"\x7d` (first pair with its optional comma) parses to
the ordered pairs. -/
theorem c4_grammar_parse_witness :
    parse_status_response
      (String.mk (renderStatus [(("pw", "1"), true), (("a", "0"), false)])) =
      .ok [("pw", "1"), ("a", "0")] :=
  c4_grammar_parse.1 [(("pw", "1"), true), (("a", "0"), false)]
    (by decide) (by decide) (by decide)

end Optoma
